import Mathlib

/-!
Verification of the fabric-editor MCP synchronization core.

Shallow embedding of:
- the relay/mirror service in `src/mcp-server/index.js` (`updateLocalState`,
  `broadcastAction`, the WebSocket message handler, the pending-request table
  and the `get_snapshot` timeout), and
- the client sync adapter in
  `src/packages/core/plugin/DesignAutomationPlugin.ts`
  (`_handleRemoteCommand`, `_reportManualChange`, the `object:added` /
  `object:removed` observers, `createNode`, `updateNodeProps`, `deleteNode`).

JavaScript objects (property bags) are modelled as insertion-ordered
association lists `Props`; property access `o.k` is `jsGet o k`, which yields
the explicit value `JVal.undef` for a missing key, matching the behaviour of
JavaScript member access and `===` comparison against `undefined`.
Numeric properties are modelled as integers (the values the system actually
exchanges are integral, so `Math.round` is the identity on them).
-/

set_option autoImplicit false

namespace FE

/-- A JavaScript value as it occurs in the synchronized property bags:
a string, an integral number, or `undefined`. -/
inductive JVal where
  | str (s : String)
  | num (n : Int)
  | undef
  deriving DecidableEq, Repr

/-- A JavaScript object: an insertion-ordered association list of
string keys and values (JSON-derived objects have no duplicate keys). -/
abbrev Props := List (String × JVal)

/-- First binding of key `k`, if any (JS objects hold at most one). -/
def getProp : Props → String → Option JVal
  | [], _ => none
  | (k', v') :: rest, k => if k' = k then some v' else getProp rest k

/-- JavaScript member access `o[k]`: `undefined` when the key is absent. -/
def jsGet (ps : Props) (k : String) : JVal :=
  (getProp ps k).getD JVal.undef

/-- JavaScript property assignment `o[k] = v`: updates the value in place
(keeping the key's position) or appends a new binding. -/
def setProp : Props → String → JVal → Props
  | [], k, v => [(k, v)]
  | (k', v') :: rest, k, v =>
    if k' = k then (k', v) :: rest else (k', v') :: setProp rest k v

/-- `Object.assign(target, src)` / object spread: assign every binding of
`src` onto `target`, left to right. -/
def objAssign (target src : Props) : Props :=
  src.foldl (fun t kv => setProp t kv.1 kv.2) target

/-- JavaScript truthiness on the modelled values. -/
def truthy : JVal → Bool
  | .str s => s ≠ ""
  | .num n => n ≠ 0
  | .undef => false

/-- Well-formed object: no duplicate keys (always true of objects parsed
from JSON or built by object literals). -/
def wfProps (ps : Props) : Prop := (ps.map Prod.fst).Nodup

instance (ps : Props) : Decidable (wfProps ps) := by
  unfold wfProps; infer_instance

/-!
## Wire protocol

One parsed WebSocket message (`JSON.parse` result), with the envelope fields
the relay and the client inspect. `args` is flattened into its tool-specific
fields (`args.type`, `args.props`, `args.id`, `args.color`, `args.tokens`);
an absent field is `none` / `JVal.undef` / `[]`.
-/

/-- A layer description inside an `INITIAL_STATE_SYNC` payload
(`{id, type, style}` as produced by `getDesignSchema`). -/
structure SyncLayer where
  lid : JVal
  lty : JVal
  lstyle : Props
  deriving DecidableEq, Repr

/-- A parsed incoming WebSocket message. -/
structure WireMsg where
  tool : Option String
  argsType : Option String
  argsProps : Props
  argsId : JVal
  argsColor : JVal
  argsTokens : Props
  source : Option String
  mtype : Option String
  requestId : Option String
  payloadVal : JVal
  payloadLayers : List SyncLayer
  payloadBackground : JVal
  deriving DecidableEq, Repr

/-- The empty message: every envelope field absent. -/
def emptyMsg : WireMsg :=
  { tool := none, argsType := none, argsProps := [], argsId := JVal.undef,
    argsColor := JVal.undef, argsTokens := [], source := none, mtype := none,
    requestId := none, payloadVal := JVal.undef, payloadLayers := [],
    payloadBackground := JVal.undef }

/-- A Mutation Event `{tool: 'create_node', args: {type, props}}`. -/
def mkCreateMsg (ty : Option String) (props : Props) : WireMsg :=
  { emptyMsg with
    tool := some "create_node", argsType := ty, argsProps := props,
    source := some "AI" }

/-- A Mutation Event `{tool: 'update_node', args: {id, props}}`. -/
def mkUpdateMsg (idv : JVal) (props : Props) : WireMsg :=
  { emptyMsg with
    tool := some "update_node", argsId := idv, argsProps := props,
    source := some "AI" }

/-- A Mutation Event `{tool: 'delete_node', args: {id}}`. -/
def mkDeleteMsg (idv : JVal) : WireMsg :=
  { emptyMsg with
    tool := some "delete_node", argsId := idv, source := some "AI" }

/-!
## Relay / mirror service (src/mcp-server/index.js)
-/

/-- The relay's process state: the mirror (`localDesignState`: layers,
background, tokens) and the pending-request table (`pendingRequests`,
request id to the waiting caller, identified by a tag). -/
structure RelayState where
  layers : List Props
  background : JVal
  tokens : Props
  pending : List (String × Nat)
  deriving DecidableEq, Repr

/-- `localDesignState` at process start:
`{ layers: [], background: '#ffffff', tokens: {} }`. -/
def relayInit : RelayState :=
  { layers := [], background := JVal.str "#ffffff", tokens := [],
    pending := [] }

/-- The node appended by `create_node`:
`{ id: args.props.id, type: args.type, ...args.props }`. -/
def createLayer (argsType : Option String) (props : Props) : Props :=
  objAssign
    [("id", jsGet props "id"),
     ("type", (argsType.map JVal.str).getD JVal.undef)]
    props

/-- Whether some layer satisfies `l.id === idv`
(`localDesignState.layers.find(...)` succeeds). -/
def hasLayerId : List Props → JVal → Bool
  | [], _ => false
  | l :: rest, idv => if jsGet l "id" = idv then true else hasLayerId rest idv

/-- `Object.assign(layer, props)` on the first layer with `l.id === idv`,
in place. -/
def updateFirstLayer : List Props → JVal → Props → List Props
  | [], _, _ => []
  | l :: rest, idv, props =>
    if jsGet l "id" = idv then objAssign l props :: rest
    else l :: updateFirstLayer rest idv props

/-- The `update_node` mirror semantics: merge into the found layer, else
upsert `{ id: args.id, ...args.props }`. -/
def mirrorUpdateNode (layers : List Props) (idv : JVal) (props : Props) :
    List Props :=
  if hasLayerId layers idv then updateFirstLayer layers idv props
  else layers ++ [objAssign [("id", idv)] props]

/-- `updateLocalState(msg)`: the relay's per-tool mirror transition.
Tools the switch does not handle (`apply_theme`, `get_screenshot`,
unknown tools) fall through to `default` and leave the mirror unchanged. -/
def updateLocalState (st : RelayState) (msg : WireMsg) : RelayState :=
  match msg.tool with
  | some "create_node" =>
    { st with layers := st.layers ++ [createLayer msg.argsType msg.argsProps] }
  | some "update_node" =>
    { st with layers := mirrorUpdateNode st.layers msg.argsId msg.argsProps }
  | some "delete_node" =>
    { st with layers :=
        st.layers.filter (fun l => !decide (jsGet l "id" = msg.argsId)) }
  | some "clear_canvas" => { st with layers := [] }
  | some "set_background_color" => { st with background := msg.argsColor }
  | some "set_design_tokens" =>
    { st with tokens := objAssign st.tokens msg.argsTokens }
  | _ => st

/-- A registered WebSocket connection: its identity and whether
`readyState === WebSocket.OPEN`. -/
structure Conn where
  cid : Nat
  isOpen : Bool
  deriving DecidableEq, Repr

/-- `broadcastAction(action, skipWs)`: the connections the action is sent to —
every registered connection that is not `skipWs` and is open. -/
def broadcastAction (conns : List Conn) (skipWs : Option Nat) : List Nat :=
  (conns.filter (fun c => !decide (some c.cid = skipWs) && c.isOpen)).map
    (fun c => c.cid)

/-- The source allow-list guarding the Mutation-Event branch of the relay's
message handler. -/
def recognizedSource : Option String → Bool
  | some s =>
    s = "MANUAL_UI" || s = "AI" || s = "TEST" || s = "TEST_SCRIPT" ||
    s = "MCP_TEST" || s = "TEST_PATTERN"
  | none => false

/-- JavaScript truthiness of `msg.requestId` (a string field). -/
def truthyReqId : Option String → Bool
  | some s => s ≠ ""
  | none => false

/-- The `RESPONSE` branch core: `pendingRequests.get(msg.requestId)`;
if present, resolve that waiter with `msg.payload` and delete the entry. -/
def handleResponse (table : List (String × Nat)) (rid : String)
    (payload : JVal) : Option (Nat × JVal) × List (String × Nat) :=
  match table.find? (fun e => decide (e.1 = rid)) with
  | some e => (some (e.2, payload), removeKey table rid)
  | none => (none, table)
where
  /-- `Map.delete`: drop the binding of `rid` (Map keys are unique). -/
  removeKey : List (String × Nat) → String → List (String × Nat)
    | [], _ => []
    | e :: rest, r => if e.1 = r then rest else e :: removeKey rest r

/-- A message sent out by the relay's message handler: either the received
message relayed verbatim, or the synchronous success acknowledgment
(`{type:'RESPONSE', status:'success', tool}`) sent back to the sender. -/
inductive OutMsg where
  | relay (m : WireMsg)
  | ackMsg (tool : Option String)
  deriving DecidableEq, Repr

/-- Result of processing one incoming message on the relay. -/
structure HandlerOut where
  state : RelayState
  sends : List (Nat × OutMsg)
  resolved : List (Nat × JVal)
  deriving DecidableEq, Repr

/-- The node rebuilt from an `INITIAL_STATE_SYNC` layer:
`{ id: layer.id, type: layer.type, ...layer.style }`. -/
def syncLayerNode (L : SyncLayer) : Props :=
  objAssign [("id", L.lid), ("type", L.lty)] L.lstyle

/-- The relay's `ws.on('message')` handler for a parsed message `msg`
arriving on connection `sender`: the four sequential branches
(recognized-source Mutation Event, `RESPONSE`, `HANDSHAKE` — log only —
and `INITIAL_STATE_SYNC`). -/
def relayHandleMessage (conns : List Conn) (sender : Nat) (st : RelayState)
    (msg : WireMsg) : HandlerOut :=
  let st1 := if recognizedSource msg.source = true then updateLocalState st msg
             else st
  let sends1 : List (Nat × OutMsg) :=
    if recognizedSource msg.source = true then
      (broadcastAction conns (some sender)).map
        (fun c => (c, OutMsg.relay msg)) ++
      (if ¬msg.source = some "MANUAL_UI" ∧ ¬msg.tool = some "get_screenshot"
       then [(sender, OutMsg.ackMsg msg.tool)] else [])
    else []
  let sends2 : List (Nat × OutMsg) :=
    if msg.mtype = some "RESPONSE" ∧ truthyReqId msg.requestId = true then
      (broadcastAction conns (some sender)).map (fun c => (c, OutMsg.relay msg))
    else []
  let respResult :=
    if msg.mtype = some "RESPONSE" ∧ truthyReqId msg.requestId = true then
      handleResponse st1.pending (msg.requestId.getD "") msg.payloadVal
    else (none, st1.pending)
  let st2 := { st1 with pending := respResult.2 }
  let st3 :=
    if msg.mtype = some "INITIAL_STATE_SYNC" then
      { st2 with
        layers := msg.payloadLayers.map syncLayerNode,
        background := msg.payloadBackground }
    else st2
  { state := st3, sends := sends1 ++ sends2, resolved := respResult.1.toList }

/-- Folding a stream of Mutation Events into the mirror, in arrival order. -/
def applyEvents (st : RelayState) (msgs : List WireMsg) : RelayState :=
  msgs.foldl updateLocalState st

/-- How many layers of the mirror satisfy `l.id === idv`. -/
def countLayersWithId (layers : List Props) (idv : JVal) : Nat :=
  (layers.filter (fun l => decide (jsGet l "id" = idv))).length

/-- The first mirror layer with `l.id === idv`, if any (the layer that
`updateLocalState`'s `find` and query answers address). -/
def mirrorFind (layers : List Props) (idv : JVal) : Option Props :=
  layers.find? (fun l => decide (jsGet l "id" = idv))

/-!
## Client sync adapter (src/packages/core/plugin/DesignAutomationPlugin.ts)

The fabric objects on the canvas are modelled by their property bags
(`Props`); fabric constructors are modelled by the option-object assignment
they perform plus their intrinsic `type`. The adapter's WebSocket is
`wsConn : Option Bool` — `none` for `this.ws === null`, `some b` with
`b = (readyState === WebSocket.OPEN)`.
-/

/-- The plugin's state: the canvas objects, the design-token map
(`Record<string, string>`), the `isProcessingRemote` reentrancy flag and the
connection. -/
structure ClientState where
  objects : List Props
  tokens : List (String × String)
  isProcessingRemote : Bool
  wsConn : Option Bool
  deriving DecidableEq, Repr

/-- `s.includes('text')` on the fabric type string, guarded by the
truthiness of `obj.type` (`obj.type && obj.type.includes('text')`). -/
def typeIncludesText : JVal → Bool
  | .str s => s ≠ "" && (s.splitOn "text").length ≥ 2
  | _ => false

/-- `Math.round(v || 0)` on an integer-valued property
(the model's numerics are integral, so rounding is the identity;
falsy values coerce to 0). -/
def roundOr0 : JVal → JVal
  | .num n => .num n
  | _ => .num 0

/-- `_getObjectProps(obj)`: the full property snapshot reported for an
object — the base keys, plus text keys for text types, plus `radius` for
circles and `rx`/`ry` for rects. (The nested `shadow` sub-object is not
modelled; no claim concerns it.) -/
def getObjectProps (o : Props) : Props :=
  let base : Props :=
    [("left", roundOr0 (jsGet o "left")), ("top", roundOr0 (jsGet o "top")),
     ("scaleX", jsGet o "scaleX"), ("scaleY", jsGet o "scaleY"),
     ("angle", jsGet o "angle"), ("fill", jsGet o "fill"),
     ("stroke", jsGet o "stroke"), ("strokeWidth", jsGet o "strokeWidth"),
     ("opacity", jsGet o "opacity"), ("visible", jsGet o "visible")]
  let base :=
    if typeIncludesText (jsGet o "type") then
      objAssign base
        [("text", jsGet o "text"), ("fontSize", jsGet o "fontSize"),
         ("fontWeight", jsGet o "fontWeight"),
         ("fontFamily", jsGet o "fontFamily"),
         ("textAlign", jsGet o "textAlign"),
         ("lineHeight", jsGet o "lineHeight"),
         ("charSpacing", jsGet o "charSpacing")]
    else base
  let base :=
    if jsGet o "type" = JVal.str "circle" then
      objAssign base [("radius", jsGet o "radius")]
    else base
  if jsGet o "type" = JVal.str "rect" then
    objAssign base [("rx", jsGet o "rx"), ("ry", jsGet o "ry")]
  else base

/-- `this.tokens[v]` for a candidate fill value (string-keyed record;
a non-string index finds nothing). -/
def tokenLookup (tokens : List (String × String)) (v : JVal) : Option String :=
  match v with
  | .str f => (tokens.find? (fun e => decide (e.1 = f))).map (fun e => e.2)
  | _ => none

/-- `if (props.fill && this.tokens[props.fill]) props.fill =
this.tokens[props.fill]`. -/
def resolveFillProps (tokens : List (String × String)) (props : Props) :
    Props :=
  if truthy (jsGet props "fill") then
    match tokenLookup tokens (jsGet props "fill") with
    | some t => if t ≠ "" then setProp props "fill" (JVal.str t) else props
    | none => props
  else props

/-- `_reportManualChange(obj)`: the Mutation Event sent over the WebSocket,
or `none` when suppressed (reentrancy flag set, connection absent or not
open, no target, or the reserved `workspace` id). -/
def reportManualChange (st : ClientState) (obj : Option Props) :
    Option WireMsg :=
  if st.isProcessingRemote then none
  else match st.wsConn with
  | none => none
  | some isOpen =>
    if isOpen = false then none
    else match obj with
    | none => none
    | some o =>
      if jsGet o "id" = JVal.str "workspace" then none
      else some
        { emptyMsg with
          tool := some "update_node", argsId := jsGet o "id",
          argsProps := getObjectProps o, source := some "MANUAL_UI" }

/-- The `obj.type` value carried in a reported `create_node` event's
`args.type` field. -/
def asStrOpt : JVal → Option String
  | .str s => some s
  | _ => none

/-- The `object:added` observer (`reportAdded`): reports a manual addition as
a `create_node` event, assigning a fresh uuid when the object has no id;
suppressed for the reentrancy flag, a missing/closed connection, the
reserved `workspace` id, or the `_automation_ignore` mark. -/
def reportAdded (st : ClientState) (obj : Option Props) (freshId : String) :
    Option WireMsg :=
  if st.isProcessingRemote then none
  else match st.wsConn with
  | none => none
  | some isOpen =>
    if isOpen = false then none
    else match obj with
    | none => none
    | some o =>
      if jsGet o "id" = JVal.str "workspace" then none
      else if truthy (jsGet o "_automation_ignore") then none
      else
        let o := if truthy (jsGet o "id") then o
                 else setProp o "id" (JVal.str freshId)
        some
          { emptyMsg with
            tool := some "create_node", argsType := asStrOpt (jsGet o "type"),
            argsProps := objAssign [("id", jsGet o "id")] (getObjectProps o),
            source := some "MANUAL_UI" }

/-- The `object:removed` observer (`reportRemoved`): reports a manual removal
as a `delete_node` event (note the source checks only `this.ws`, not its
`readyState`); suppressed for the reentrancy flag, a missing connection, a
falsy id, or the reserved `workspace` id. -/
def reportRemoved (st : ClientState) (obj : Option Props) : Option WireMsg :=
  if st.isProcessingRemote then none
  else match st.wsConn with
  | none => none
  | some _ =>
    match obj with
    | none => none
    | some o =>
      if truthy (jsGet o "id") && !decide (jsGet o "id" = JVal.str "workspace")
      then some
        { emptyMsg with
          tool := some "delete_node", argsId := jsGet o "id",
          source := some "MANUAL_UI" }
      else none

/-- The node id carried by an emitted Mutation Event: `args.props.id` for a
`create_node`, `args.id` for `update_node`/`delete_node`. -/
def emittedEventId (m : WireMsg) : JVal :=
  if m.tool = some "create_node" then jsGet m.argsProps "id" else m.argsId

/-- The `fabric.IText` built for the text types:
`new fabric.IText(props.text || 'Text', { fontSize: 24, ...finalProps })`. -/
def mkITextObj (props finalProps : Props) : Props :=
  objAssign
    [("type", JVal.str "i-text"),
     ("text", if truthy (jsGet props "text") then jsGet props "text"
              else JVal.str "Text"),
     ("fontSize", JVal.num 24)]
    finalProps

/-- The object `createNode` builds before adding it to the canvas:
id defaulting (`props.id || uuid()`), `{...props, id}`, token resolution of
`fill`, then the fabric constructor for the node type (`none` for an
unrecognized type: nothing is added). -/
def builtObject (tokens : List (String × String)) (ty : String)
    (props : Props) (freshId : String) : Option Props :=
  let idv := if truthy (jsGet props "id") then jsGet props "id"
             else JVal.str freshId
  let finalProps := resolveFillProps tokens (setProp props "id" idv)
  match ty.toLower with
  | "rect" =>
    some (objAssign
      [("type", JVal.str "rect"), ("width", JVal.num 100),
       ("height", JVal.num 100)] finalProps)
  | "circle" =>
    some (objAssign
      [("type", JVal.str "circle"), ("radius", JVal.num 50)] finalProps)
  | "text" => some (mkITextObj props finalProps)
  | "i-text" => some (mkITextObj props finalProps)
  | "textbox" => some (mkITextObj props finalProps)
  | _ => none

/-- The canvas object list after `createNode`: `canvas.add(obj)` appends the
built object (carrying the transient `_automation_ignore` mark the code sets
before adding); an unrecognized type adds nothing. -/
def createNodeObjects (tokens : List (String × String)) (objs : List Props)
    (ty : String) (props : Props) (freshId : String) : List Props :=
  match builtObject tokens ty props freshId with
  | some o => objs ++ [setProp o "_automation_ignore" (JVal.num 1)]
  | none => objs

/-- `createNode(type, props)` on the client. -/
def createNode (st : ClientState) (ty : String) (props : Props)
    (freshId : String) : ClientState :=
  { st with objects := createNodeObjects st.tokens st.objects ty props freshId }

/-- The canvas object list after `updateNodeProps`: `_find(id)` returns the
first object with `o.id === id`; when none is found the method returns
without touching the document, otherwise `obj.set(props)` (with `fill`
token resolution) merges the props into that object. -/
def updateNodeObjects (tokens : List (String × String)) (objs : List Props)
    (idv : JVal) (props : Props) : List Props :=
  match objs.find? (fun o => decide (jsGet o "id" = idv)) with
  | none => objs
  | some _ => updateFirstLayer objs idv (resolveFillProps tokens props)

/-- `updateNodeProps(id, props)` on the client. -/
def updateNodeProps (st : ClientState) (idv : JVal) (props : Props) :
    ClientState :=
  { st with objects := updateNodeObjects st.tokens st.objects idv props }

/-- `canvas.remove` of the first object with `o.id === idv`. -/
def removeFirstObj : List Props → JVal → List Props
  | [], _ => []
  | o :: rest, idv =>
    if jsGet o "id" = idv then rest else o :: removeFirstObj rest idv

/-- The canvas object list after `deleteNode`: remove the object `_find(id)`
returned, nothing when it returned `undefined`. -/
def deleteNodeObjects (objs : List Props) (idv : JVal) : List Props :=
  match objs.find? (fun o => decide (jsGet o "id" = idv)) with
  | none => objs
  | some _ => removeFirstObj objs idv

/-- `deleteNode(id)` on the client. -/
def deleteNode (st : ClientState) (idv : JVal) : ClientState :=
  { st with objects := deleteNodeObjects st.objects idv }

/-- `this.tokens[color] || color` for the theme color at index `i`. -/
def themeColor (tokens : List (String × String)) (colors : List String)
    (i : Nat) : JVal :=
  match colors.get? (i % colors.length) with
  | some c =>
    match tokenLookup tokens (JVal.str c) with
    | some t => if t ≠ "" then JVal.str t else JVal.str c
    | none => JVal.str c
  | none => JVal.undef

/-- The canvas object list after `applyTheme(colors)`: every non-`workspace`
object gets `fill` set to the resolved color for its index. -/
def applyThemeObjects (tokens : List (String × String)) (objs : List Props)
    (colors : List String) : List Props :=
  objs.enum.map (fun p =>
    if jsGet p.2 "id" = JVal.str "workspace" then p.2
    else setProp p.2 "fill" (themeColor tokens colors p.1))

/-- `applyTheme(colors)` on the client. -/
def applyTheme (st : ClientState) (colors : List String) : ClientState :=
  { st with objects := applyThemeObjects st.tokens st.objects colors }

/-- Modelled from the spec: `this.editor.clear()` — the editor collaborator
(out of repository scope) empties the node sequence, per the spec's
clear-canvas row "empty the node sequence". -/
def editorClear (st : ClientState) : ClientState :=
  { st with objects := [] }

/-- The `args` object of a remote command, flattened per tool. -/
structure CmdArgs where
  ctype : Option String
  cprops : Props
  cid : JVal
  colors : List String
  deriving DecidableEq, Repr

/-- The dispatch inside `_handleRemoteCommand`'s `switch (tool)`: remote and
local command execution share the node operations. `get_screenshot` is a
no-op here (handled by `_handleDataRequest`), `save_to_cloud` only emits an
editor event, and an unknown tool is logged and ignored. A `create_node`
whose `args.type` is absent throws at `type.toLowerCase()` and is caught
before any document mutation. -/
def execCommand (st : ClientState) (tool : String) (args : CmdArgs)
    (freshId : String) : ClientState :=
  match tool with
  | "create_node" =>
    match args.ctype with
    | some ty => createNode st ty args.cprops freshId
    | none => st
  | "update_node" => updateNodeProps st args.cid args.cprops
  | "delete_node" => deleteNode st args.cid
  | "clear_canvas" => editorClear st
  | "apply_theme" => applyTheme st args.colors
  | _ => st

/-- Entering `_handleRemoteCommand`: `this.isProcessingRemote = true` before
any command executes. -/
def handleRemoteCommandEnter (st : ClientState) : ClientState :=
  { st with isProcessingRemote := true }

/-- `_handleRemoteCommand(tool, args)`: set the reentrancy flag, then execute
the command. The flag stays set afterwards — the `finally` block only
resets it on a deferred timer tick (`setTimeout(..., 100)`), modelled by
`resetRemoteFlag`. -/
def handleRemoteCommand (st : ClientState) (tool : String) (args : CmdArgs)
    (freshId : String) : ClientState :=
  execCommand (handleRemoteCommandEnter st) tool args freshId

/-- The deferred `this.isProcessingRemote = false` from the `finally`
block's timer. -/
def resetRemoteFlag (st : ClientState) : ClientState :=
  { st with isProcessingRemote := false }

/-!
## The get_snapshot pending request and its timeout

`case 'get_snapshot'` creates a fresh `requestId`, broadcasts a
`get_screenshot` request, stores a resolver in `pendingRequests`, and races
it against a `setTimeout` of 10000 ms that deletes the entry and rejects
with `Error('Snapshot request timed out')`; the surrounding `catch` turns
the rejection into the `isError` tool result
`Snapshot failed: <message>`. Modelled as a step machine over
millisecond ticks and response arrivals.
-/

/-- The value the `get_snapshot` tool call settles with: the resolved
payload, or the `isError: true` failure text. -/
inductive ToolResult where
  | ok (payload : JVal)
  | err (text : String)
  deriving DecidableEq, Repr

/-- The configured window: `10000` ms (`// 10s timeout`). -/
def snapshotTimeoutMs : Nat := 10000

/-- One outstanding `get_snapshot` call: its `requestId`, the milliseconds
elapsed since it was issued, whether its resolver is still in
`pendingRequests`, and the settled result, if any. -/
structure SnapPending where
  requestId : String
  elapsedMs : Nat
  inTable : Bool
  outcome : Option ToolResult
  deriving DecidableEq, Repr

/-- An event affecting the outstanding call: one millisecond elapsing, or a
`RESPONSE` envelope with some `requestId` and payload arriving. -/
inductive SnapEvent where
  | tick
  | response (rid : String) (payload : JVal)
  deriving DecidableEq, Repr

/-- The state right after `get_snapshot` stores its resolver. -/
def snapInit (rid : String) : SnapPending :=
  { requestId := rid, elapsedMs := 0, inTable := true, outcome := none }

/-- One step of the outstanding call: a settled call never changes again
(`clearTimeout` / the deleted table entry); the timer firing at 10000 ms
deletes the pending entry and rejects; a `RESPONSE` whose `requestId`
matches a still-pending entry resolves it with the payload and deletes the
entry; any other response leaves the call untouched. -/
def snapStep (st : SnapPending) (e : SnapEvent) : SnapPending :=
  match st.outcome with
  | some _ => st
  | none =>
    match e with
    | .tick =>
      if st.elapsedMs + 1 = snapshotTimeoutMs then
        { st with
          elapsedMs := st.elapsedMs + 1, inTable := false,
          outcome := some (ToolResult.err
            "Snapshot failed: Snapshot request timed out") }
      else { st with elapsedMs := st.elapsedMs + 1 }
    | .response rid p =>
      if st.inTable = true ∧ rid = st.requestId then
        { st with inTable := false, outcome := some (ToolResult.ok p) }
      else st

/-- The call after `n` milliseconds during which no response arrived. -/
def snapRun (rid : String) : Nat → SnapPending
  | 0 => snapInit rid
  | n + 1 => snapStep (snapRun rid n) SnapEvent.tick

/-- The still-pending state after `n < 10000` silent milliseconds. -/
def snapPendingAt (rid : String) (n : Nat) : SnapPending :=
  { requestId := rid, elapsedMs := n, inTable := true, outcome := none }

/-- The timed-out state: entry deleted, failure reported. -/
def snapFailedAt (rid : String) : SnapPending :=
  { requestId := rid, elapsedMs := snapshotTimeoutMs, inTable := false,
    outcome := some (ToolResult.err
      "Snapshot failed: Snapshot request timed out") }

/-!
## Helper lemmas
-/

-- ### Basic lemmas about the property-bag operations

theorem getProp_setProp_self (ps : Props) (k : String) (v : JVal) :
    getProp (setProp ps k v) k = some v := by
  induction ps with
  | nil => simp [setProp, getProp]
  | cons hd tl ih =>
    obtain ⟨k', v'⟩ := hd
    by_cases h : k' = k
    · simp [setProp, h, getProp]
    · simp [setProp, h, getProp, ih]

theorem getProp_setProp_ne (ps : Props) {k k' : String} (v : JVal) (h : k ≠ k') :
    getProp (setProp ps k v) k' = getProp ps k' := by
  induction ps with
  | nil => simp [setProp, getProp, h]
  | cons hd tl ih =>
    obtain ⟨k₀, v₀⟩ := hd
    by_cases h₀ : k₀ = k
    · subst h₀; simp [setProp, getProp, h]
    · simp [setProp, h₀, getProp, ih]

theorem getProp_eq_none_of_not_mem (ps : Props) (k : String)
    (h : k ∉ ps.map Prod.fst) : getProp ps k = none := by
  induction ps with
  | nil => rfl
  | cons hd tl ih =>
    obtain ⟨k', v'⟩ := hd
    simp only [List.map_cons, List.mem_cons] at h
    push_neg at h
    simp only [getProp, if_neg (Ne.symm h.1)]
    exact ih h.2

theorem getProp_objAssign_of_none {k : String} :
    ∀ (src target : Props), getProp src k = none →
      getProp (objAssign target src) k = getProp target k := by
  intro src
  induction src with
  | nil => intro t _; rfl
  | cons hd tl ih =>
    intro t h
    obtain ⟨k', v'⟩ := hd
    simp only [getProp] at h
    by_cases hk : k' = k
    · simp [hk] at h
    · simp only [hk, if_false] at h
      show getProp (objAssign (setProp t k' v') tl) k = getProp t k
      rw [ih _ h, getProp_setProp_ne _ _ hk]

theorem getProp_objAssign_of_some {k : String} {v : JVal} :
    ∀ (src target : Props), wfProps src → getProp src k = some v →
      getProp (objAssign target src) k = some v := by
  intro src
  induction src with
  | nil => intro t _ h; simp [getProp] at h
  | cons hd tl ih =>
    intro t hwf h
    obtain ⟨k', v'⟩ := hd
    simp only [wfProps, List.map_cons, List.nodup_cons] at hwf
    simp only [getProp] at h
    by_cases hk : k' = k
    · subst hk
      simp only [if_pos rfl] at h
      show getProp (objAssign (setProp t k' v') tl) k' = some v
      rw [getProp_objAssign_of_none tl _
            (getProp_eq_none_of_not_mem tl k' hwf.1),
          getProp_setProp_self]
      exact h
    · simp only [hk, if_false] at h
      show getProp (objAssign (setProp t k' v') tl) k = some v
      exact ih _ hwf.2 h

theorem jsGet_objAssign_of_none {k : String} (src target : Props)
    (h : getProp src k = none) :
    jsGet (objAssign target src) k = jsGet target k := by
  simp [jsGet, getProp_objAssign_of_none src target h]

theorem snapRun_pending (rid : String) :
    ∀ n, n < snapshotTimeoutMs → snapRun rid n = snapPendingAt rid n := by
  intro n
  induction n with
  | zero => intro _; rfl
  | succ m ih =>
    intro h
    have hm : m < snapshotTimeoutMs := Nat.lt_of_succ_lt h
    show snapStep (snapRun rid m) SnapEvent.tick = snapPendingAt rid (m + 1)
    rw [ih hm]
    simp [snapStep, snapPendingAt, Nat.ne_of_lt h]

theorem snapRun_timeout (rid : String) :
    snapRun rid snapshotTimeoutMs = snapFailedAt rid := by
  have h10 : snapshotTimeoutMs = 9999 + 1 := by norm_num [snapshotTimeoutMs]
  rw [h10]
  show snapStep (snapRun rid 9999) SnapEvent.tick = snapFailedAt rid
  rw [snapRun_pending rid 9999 (by norm_num [snapshotTimeoutMs])]
  simp [snapStep, snapPendingAt, snapFailedAt, snapshotTimeoutMs]

theorem snapRun_after_timeout (rid : String) :
    ∀ k, snapRun rid (snapshotTimeoutMs + k) = snapFailedAt rid := by
  intro k
  induction k with
  | zero => rw [Nat.add_zero]; exact snapRun_timeout rid
  | succ m ih =>
    show snapStep (snapRun rid (snapshotTimeoutMs + m)) SnapEvent.tick
        = snapFailedAt rid
    rw [ih]
    rfl

theorem execCommand_isProcessingRemote (st : ClientState) (tool : String)
    (args : CmdArgs) (freshId : String) :
    (execCommand st tool args freshId).isProcessingRemote
      = st.isProcessingRemote := by
  unfold execCommand
  split
  · split <;> rfl
  all_goals rfl

theorem mem_broadcastAction {conns : List Conn} {c : Conn} {skip : Option Nat}
    (hmem : c ∈ conns) (hne : ¬some c.cid = skip) (hopen : c.isOpen = true) :
    c.cid ∈ broadcastAction conns skip := by
  unfold broadcastAction
  exact List.mem_map.mpr
    ⟨c, List.mem_filter.mpr ⟨hmem, by simp [hne, hopen]⟩, rfl⟩

theorem not_mem_broadcastAction_self (conns : List Conn) (sender : Nat) :
    sender ∉ broadcastAction conns (some sender) := by
  unfold broadcastAction
  intro h
  rcases List.mem_map.mp h with ⟨c, hc, hcid⟩
  rcases List.mem_filter.mp hc with ⟨_, hpred⟩
  rw [hcid] at hpred
  simp at hpred

theorem relayHandleMessage_sends (conns : List Conn) (sender : Nat)
    (st : RelayState) (msg : WireMsg)
    (hsrc : recognizedSource msg.source = true) :
    (relayHandleMessage conns sender st msg).sends
      = ((broadcastAction conns (some sender)).map
          (fun x => (x, OutMsg.relay msg)) ++
         (if ¬msg.source = some "MANUAL_UI" ∧ ¬msg.tool = some "get_screenshot"
          then [(sender, OutMsg.ackMsg msg.tool)] else [])) ++
        (if msg.mtype = some "RESPONSE" ∧ truthyReqId msg.requestId = true
         then (broadcastAction conns (some sender)).map
            (fun x => (x, OutMsg.relay msg))
         else []) := by
  simp [relayHandleMessage, hsrc]

theorem updateLocalState_create (st : RelayState) (ty : Option String)
    (props : Props) :
    updateLocalState st (mkCreateMsg ty props)
      = { st with layers := st.layers ++ [createLayer ty props] } := rfl

theorem updateLocalState_update (st : RelayState) (idv : JVal)
    (props : Props) :
    updateLocalState st (mkUpdateMsg idv props)
      = { st with layers := mirrorUpdateNode st.layers idv props } := rfl

theorem updateLocalState_delete (st : RelayState) (idv : JVal) :
    updateLocalState st (mkDeleteMsg idv)
      = { st with layers :=
          st.layers.filter (fun l => !decide (jsGet l "id" = idv)) } := rfl

theorem hasLayerId_false_forall {layers : List Props} {idv : JVal}
    (h : hasLayerId layers idv = false) :
    ∀ l ∈ layers, ¬jsGet l "id" = idv := by
  induction layers with
  | nil => intro l hl; cases hl
  | cons a rest ih =>
    intro l hl
    unfold hasLayerId at h
    by_cases ha : jsGet a "id" = idv
    · simp [ha] at h
    · rw [if_neg ha] at h
      rcases List.mem_cons.mp hl with rfl | hl'
      · exact ha
      · exact ih h l hl'

theorem filter_ne_eq_self : ∀ (layers : List Props) (idv : JVal),
    hasLayerId layers idv = false →
    layers.filter (fun l => !decide (jsGet l "id" = idv)) = layers := by
  intro layers idv
  induction layers with
  | nil => intro _; rfl
  | cons l rest ih =>
    intro h
    unfold hasLayerId at h
    by_cases hl : jsGet l "id" = idv
    · simp [hl] at h
    · rw [if_neg hl] at h
      simp [List.filter_cons, hl, ih h]

theorem filter_idem {α : Type} (p : α → Bool) :
    ∀ l : List α, (l.filter p).filter p = l.filter p := by
  intro l
  induction l with
  | nil => rfl
  | cons a rest ih =>
    by_cases h : p a = true
    · simp [List.filter_cons, h, ih]
    · simp [List.filter_cons, h, ih]

theorem countLayersWithId_zero_iff_find_none (objs : List Props)
    (idv : JVal) :
    objs.find? (fun o => decide (jsGet o "id" = idv)) = none
      ↔ countLayersWithId objs idv = 0 := by
  rw [List.find?_eq_none, countLayersWithId, List.length_eq_zero,
    List.filter_eq_nil_iff]

theorem countLayersWithId_removeFirstObj :
    ∀ (objs : List Props) (idv : JVal),
    countLayersWithId (removeFirstObj objs idv) idv
      = countLayersWithId objs idv - 1 := by
  intro objs idv
  induction objs with
  | nil => rfl
  | cons o rest ih =>
    by_cases h : jsGet o "id" = idv
    · simp [removeFirstObj, h, countLayersWithId, List.filter_cons]
    · simp only [removeFirstObj, if_neg h]
      simpa [countLayersWithId, List.filter_cons, h] using ih

theorem countLayersWithId_deleteNodeObjects (objs : List Props)
    (idv : JVal) :
    countLayersWithId (deleteNodeObjects objs idv) idv
      = countLayersWithId objs idv - 1 := by
  unfold deleteNodeObjects
  cases hf : objs.find? (fun o => decide (jsGet o "id" = idv)) with
  | none =>
    have h0 := (countLayersWithId_zero_iff_find_none objs idv).mp hf
    simp [h0]
  | some e => exact countLayersWithId_removeFirstObj objs idv

theorem jsGet_single_id (v : JVal) (rest : Props) :
    jsGet (("id", v) :: rest) "id" = v := by
  simp [jsGet, getProp]

theorem jsGet_setProp_self (ps : Props) (k : String) (v : JVal) :
    jsGet (setProp ps k v) k = v := by
  simp [jsGet, getProp_setProp_self]

theorem getProp_getObjectProps_id (o : Props) :
    getProp (getObjectProps o) "id" = none := by
  unfold getObjectProps
  dsimp only
  split_ifs <;>
    simp [getProp_objAssign_of_none, getProp]

theorem jsGet_createLayer_id (ty : Option String) (props : Props)
    (hwf : wfProps props) :
    jsGet (createLayer ty props) "id" = jsGet props "id" := by
  unfold createLayer
  cases h : getProp props "id" with
  | none =>
    rw [jsGet, getProp_objAssign_of_none props _ h]
    simp [getProp, jsGet, h]
  | some v =>
    rw [jsGet, getProp_objAssign_of_some props _ hwf h]
    simp [jsGet, h]

theorem applyEvents_updates (X : JVal) :
    ∀ (us : List Props) (st : RelayState),
      applyEvents st (us.map (mkUpdateMsg X))
        = { st with layers :=
            us.foldl (fun ls u => mirrorUpdateNode ls X u) st.layers } := by
  intro us
  induction us with
  | nil => intro st; rfl
  | cons u tl ih =>
    intro st
    show applyEvents (updateLocalState st (mkUpdateMsg X u))
        (tl.map (mkUpdateMsg X)) = _
    rw [updateLocalState_update, ih]
    rfl

theorem hasLayerId_append (xs ys : List Props) (X : JVal) :
    hasLayerId (xs ++ ys) X = (hasLayerId xs X || hasLayerId ys X) := by
  induction xs with
  | nil => rfl
  | cons a tl ih =>
    by_cases h : jsGet a "id" = X
    · simp [hasLayerId, h]
    · simp [hasLayerId, h, ih]

theorem updateFirstLayer_append (X : JVal) (u : Props) :
    ∀ (pre : List Props) (l : Props) (post : List Props),
      hasLayerId pre X = false → jsGet l "id" = X →
      updateFirstLayer (pre ++ l :: post) X u
        = pre ++ objAssign l u :: post := by
  intro pre
  induction pre with
  | nil =>
    intro l post _ hl
    simp [updateFirstLayer, hl]
  | cons a tl ih =>
    intro l post hpre hl
    unfold hasLayerId at hpre
    by_cases ha : jsGet a "id" = X
    · simp [ha] at hpre
    · rw [if_neg ha] at hpre
      simp only [List.cons_append, updateFirstLayer, if_neg ha]
      show a :: updateFirstLayer (tl ++ l :: post) X u
          = a :: (tl ++ objAssign l u :: post)
      rw [ih l post hpre hl]

theorem mirrorUpdate_fold (X : JVal) :
    ∀ (us : List Props), (∀ u ∈ us, getProp u "id" = none) →
    ∀ (pre : List Props) (l : Props) (post : List Props),
      hasLayerId pre X = false → jsGet l "id" = X →
      us.foldl (fun ls u => mirrorUpdateNode ls X u) (pre ++ l :: post)
        = pre ++ us.foldl objAssign l :: post := by
  intro us
  induction us with
  | nil => intro _ pre l post _ _; rfl
  | cons u tl ih =>
    intro hus pre l post hpre hl
    have hu : getProp u "id" = none := hus u (List.mem_cons_self u tl)
    have htl : ∀ v ∈ tl, getProp v "id" = none :=
      fun v hv => hus v (List.mem_cons_of_mem u hv)
    have hhas : hasLayerId (pre ++ l :: post) X = true := by
      rw [hasLayerId_append]
      simp [hasLayerId, hl]
    show tl.foldl _ (mirrorUpdateNode (pre ++ l :: post) X u) = _
    rw [show mirrorUpdateNode (pre ++ l :: post) X u
          = pre ++ objAssign l u :: post from by
        unfold mirrorUpdateNode
        rw [if_pos hhas]
        exact updateFirstLayer_append X u pre l post hpre hl]
    rw [ih htl pre (objAssign l u) post hpre
        (by rw [jsGet_objAssign_of_none u l hu]; exact hl)]
    rfl

theorem jsGet_foldl_objAssign_id :
    ∀ (us : List Props) (l : Props), (∀ u ∈ us, getProp u "id" = none) →
      jsGet (us.foldl objAssign l) "id" = jsGet l "id" := by
  intro us
  induction us with
  | nil => intro l _; rfl
  | cons u tl ih =>
    intro l hus
    show jsGet (tl.foldl objAssign (objAssign l u)) "id" = jsGet l "id"
    rw [ih _ (fun v hv => hus v (List.mem_cons_of_mem u hv)),
      jsGet_objAssign_of_none u l (hus u (List.mem_cons_self u tl))]

theorem countLayersWithId_eq_zero_of_not_has {layers : List Props} {X : JVal}
    (h : hasLayerId layers X = false) : countLayersWithId layers X = 0 := by
  rw [countLayersWithId, List.length_eq_zero, List.filter_eq_nil_iff]
  intro a ha
  simpa using hasLayerId_false_forall h a ha

theorem mirrorFind_append (xs ys : List Props) (X : JVal)
    (h : hasLayerId xs X = false) :
    mirrorFind (xs ++ ys) X = mirrorFind ys X := by
  unfold mirrorFind
  induction xs with
  | nil => rfl
  | cons a tl ih =>
    unfold hasLayerId at h
    by_cases ha : jsGet a "id" = X
    · simp [ha] at h
    · rw [if_neg ha] at h
      show List.find? _ (a :: (tl ++ ys)) = _
      rw [List.find?_cons_of_neg _ (by simpa using ha)]
      exact ih h

theorem deleteNode_of_count_zero {cst : ClientState} {idv : JVal}
    (h : countLayersWithId cst.objects idv = 0) : deleteNode cst idv = cst := by
  have hf := (countLayersWithId_zero_iff_find_none cst.objects idv).mpr h
  show { cst with objects := deleteNodeObjects cst.objects idv } = cst
  rw [show deleteNodeObjects cst.objects idv = cst.objects from by
    unfold deleteNodeObjects; rw [hf]]

/-!
## The claims
-/

/-- C1: Echo suppression — inside `_handleRemoteCommand` the reentrancy flag
`isProcessingRemote` is set before the command executes and is still set
when it finishes (the reset is deferred to a later timer tick); while the
flag is set, none of the adapter's local-edit observers
(`_reportManualChange`, `reportAdded`, `reportRemoved`) sends any outgoing
Mutation Event, so no event sourced as remote is retransmitted as local. -/
theorem C1_echo_suppression (st : ClientState) (obj : Option Props)
    (freshId : String) (tool : String) (args : CmdArgs) (cmdFresh : String) :
    reportManualChange (handleRemoteCommandEnter st) obj = none ∧
    reportAdded (handleRemoteCommandEnter st) obj freshId = none ∧
    reportRemoved (handleRemoteCommandEnter st) obj = none ∧
    (handleRemoteCommand st tool args cmdFresh).isProcessingRemote = true := by
  refine ⟨?_, ?_, ?_, ?_⟩
  · simp [reportManualChange, handleRemoteCommandEnter]
  · simp [reportAdded, handleRemoteCommandEnter]
  · simp [reportRemoved, handleRemoteCommandEnter]
  · show (execCommand (handleRemoteCommandEnter st) tool args
        cmdFresh).isProcessingRemote = true
    rw [execCommand_isProcessingRemote]
    rfl

/-- C7: Snapshot timeout — a `get_snapshot` call for which no matching
`RESPONSE` arrives is still unsettled and still pending at every instant
strictly before the 10000 ms window, settles exactly at the window with the
explicit `isError` failure text naming the snapshot request (and at no
later instant is it anything else), with its entry removed from the
pending-request table; a `RESPONSE` carrying a different `requestId` never
affects the call. -/
theorem C7_snapshot_timeout (rid : String) (n k : Nat) (st : SnapPending)
    (r : String) (p : JVal) (hn : n < snapshotTimeoutMs)
    (hr : r ≠ st.requestId) :
    (snapRun rid n).outcome = none ∧ (snapRun rid n).inTable = true ∧
    (snapRun rid (snapshotTimeoutMs + k)).outcome
      = some (ToolResult.err "Snapshot failed: Snapshot request timed out") ∧
    (snapRun rid (snapshotTimeoutMs + k)).inTable = false ∧
    snapStep st (SnapEvent.response r p) = st := by
  refine ⟨?_, ?_, ?_, ?_, ?_⟩
  · rw [snapRun_pending rid n hn]; rfl
  · rw [snapRun_pending rid n hn]; rfl
  · rw [snapRun_after_timeout rid k]; rfl
  · rw [snapRun_after_timeout rid k]; rfl
  · cases h : st.outcome with
    | some v => simp [snapStep, h]
    | none => simp [snapStep, h, hr]

/-- C7 witness: at 3 ms the call is still pending; at 10002 ms it has
settled with the timeout failure and left the table; a response for a
different request id leaves it untouched. -/
theorem C7_snapshot_timeout_witness :
    (snapRun "req-1" 3).outcome = none ∧
    (snapRun "req-1" 3).inTable = true ∧
    (snapRun "req-1" (snapshotTimeoutMs + 2)).outcome
      = some (ToolResult.err "Snapshot failed: Snapshot request timed out") ∧
    (snapRun "req-1" (snapshotTimeoutMs + 2)).inTable = false ∧
    snapStep (snapInit "req-1") (SnapEvent.response "req-2" (JVal.str "img"))
      = snapInit "req-1" :=
  C7_snapshot_timeout "req-1" 3 2 (snapInit "req-1") "req-2" (JVal.str "img")
    (by norm_num [snapshotTimeoutMs]) (by decide)

/-- C8: Request/response correlation — with two outstanding requests under
distinct `requestId`s, a `RESPONSE` carrying the first id resolves exactly
the first waiter with its own payload and removes exactly that entry from
the pending table (and symmetrically for the second); a `RESPONSE` whose
`requestId` matches no pending request resolves nothing and leaves the
table unchanged. -/
theorem C8_request_correlation (r1 r2 r3 : String) (t1 t2 : Nat) (p : JVal)
    (h12 : r1 ≠ r2) (h31 : r3 ≠ r1) (h32 : r3 ≠ r2) :
    handleResponse [(r1, t1), (r2, t2)] r1 p = (some (t1, p), [(r2, t2)]) ∧
    handleResponse [(r1, t1), (r2, t2)] r2 p = (some (t2, p), [(r1, t1)]) ∧
    handleResponse [(r1, t1), (r2, t2)] r3 p
      = (none, [(r1, t1), (r2, t2)]) := by
  refine ⟨?_, ?_, ?_⟩
  · simp [handleResponse, handleResponse.removeKey, List.find?]
  · simp [handleResponse, handleResponse.removeKey, List.find?, h12,
      Ne.symm h12]
  · simp [handleResponse, handleResponse.removeKey, List.find?,
      Ne.symm h31, Ne.symm h32]

/-- C6: Broadcast exclusion — a Mutation Event with a recognized source
received on connection `sender` is relayed to every other currently open
registered connection, and the relayed event is never sent back to the
sender (the only message the handler may address to the sender is the
distinct success-acknowledgment envelope). -/
theorem C6_broadcast_exclusion (conns : List Conn) (sender : Nat)
    (st : RelayState) (msg : WireMsg) (c : Conn)
    (hsrc : recognizedSource msg.source = true)
    (hmem : c ∈ conns) (hne : c.cid ≠ sender) (hopen : c.isOpen = true) :
    (c.cid, OutMsg.relay msg) ∈ (relayHandleMessage conns sender st msg).sends
    ∧ (sender, OutMsg.relay msg)
        ∉ (relayHandleMessage conns sender st msg).sends := by
  rw [relayHandleMessage_sends conns sender st msg hsrc]
  constructor
  · refine List.mem_append_left _ (List.mem_append_left _ ?_)
    exact List.mem_map.mpr
      ⟨c.cid, mem_broadcastAction hmem (by simp [hne]) hopen, rfl⟩
  · intro h
    rcases List.mem_append.mp h with h1 | h2
    · rcases List.mem_append.mp h1 with h1a | h1b
      · rcases List.mem_map.mp h1a with ⟨x, hx, heq⟩
        obtain ⟨rfl, -⟩ : x = sender ∧ OutMsg.relay msg = OutMsg.relay msg :=
          Prod.mk.injEq .. ▸ heq
        exact not_mem_broadcastAction_self conns x hx
      · by_cases hack :
          ¬msg.source = some "MANUAL_UI" ∧ ¬msg.tool = some "get_screenshot"
        · simp [hack] at h1b
        · simp [hack] at h1b
    · by_cases hresp :
        msg.mtype = some "RESPONSE" ∧ truthyReqId msg.requestId = true
      · simp only [if_pos hresp] at h2
        rcases List.mem_map.mp h2 with ⟨x, hx, heq⟩
        obtain ⟨rfl, -⟩ : x = sender ∧ OutMsg.relay msg = OutMsg.relay msg :=
          Prod.mk.injEq .. ▸ heq
        exact not_mem_broadcastAction_self conns x hx
      · simp [hresp] at h2

/-- C6 witness: with two open connections 1 and 2 and a recognized-source
update event arriving on connection 1, the relayed event reaches
connection 2 and is not sent back to connection 1. -/
theorem C6_broadcast_exclusion_witness :
    (2, OutMsg.relay (mkUpdateMsg (JVal.str "n1") [("left", JVal.num 5)]))
      ∈ (relayHandleMessage [⟨1, true⟩, ⟨2, true⟩] 1 relayInit
          (mkUpdateMsg (JVal.str "n1") [("left", JVal.num 5)])).sends ∧
    (1, OutMsg.relay (mkUpdateMsg (JVal.str "n1") [("left", JVal.num 5)]))
      ∉ (relayHandleMessage [⟨1, true⟩, ⟨2, true⟩] 1 relayInit
          (mkUpdateMsg (JVal.str "n1") [("left", JVal.num 5)])).sends :=
  C6_broadcast_exclusion [⟨1, true⟩, ⟨2, true⟩] 1 relayInit
    (mkUpdateMsg (JVal.str "n1") [("left", JVal.num 5)]) ⟨2, true⟩
    (by decide) (by decide) (by decide) (by decide)

/-- C10: Source allow-list — a parsed message whose type is neither
`RESPONSE` nor `INITIAL_STATE_SYNC` and whose source is absent or not one of
the six recognized literals leaves the relay state (mirror and pending
table) unchanged, is broadcast to no connection, and is not acknowledged to
the sender. -/
theorem C10_source_allowlist (conns : List Conn) (sender : Nat)
    (st : RelayState) (msg : WireMsg)
    (hsrc : recognizedSource msg.source = false)
    (ht1 : ¬msg.mtype = some "RESPONSE")
    (ht2 : ¬msg.mtype = some "INITIAL_STATE_SYNC") :
    relayHandleMessage conns sender st msg
      = { state := st, sends := [], resolved := [] } := by
  simp [relayHandleMessage, hsrc, ht1, ht2]

/-- C10 witness: an unsourced `create_node` message (type absent) is dropped
whole: state unchanged, nothing sent, nothing resolved. -/
theorem C10_source_allowlist_witness :
    relayHandleMessage [⟨1, true⟩] 1 relayInit
      { emptyMsg with
        tool := some "create_node", argsProps := [("id", JVal.str "n1")] }
      = { state := relayInit, sends := [], resolved := [] } :=
  C10_source_allowlist [⟨1, true⟩] 1 relayInit
    { emptyMsg with
      tool := some "create_node", argsProps := [("id", JVal.str "n1")] }
    (by decide) (by decide) (by decide)

/-- C8 witness: the correlation at the concrete ids a, b and the unknown
id c. -/
theorem C8_request_correlation_witness :
    handleResponse [("a", 1), ("b", 2)] "a" (JVal.str "p1")
      = (some (1, JVal.str "p1"), [("b", 2)]) ∧
    handleResponse [("a", 1), ("b", 2)] "b" (JVal.str "p1")
      = (some (2, JVal.str "p1"), [("a", 1)]) ∧
    handleResponse [("a", 1), ("b", 2)] "c" (JVal.str "p1")
      = (none, [("a", 1), ("b", 2)]) :=
  C8_request_correlation "a" "b" "c" 1 2 (JVal.str "p1")
    (by decide) (by decide) (by decide)

/-- C9 counterexample: on a client document holding two objects with the
same id (a state the system can reach, since remote `create_node` never
checks for an existing id), `deleteNode` removes only the first match, so
deleting the same id twice does not yield the same end state as deleting it
once — the claim's universally quantified idempotence fails on the client. -/
theorem C9_counterexample :
    deleteNode
        (deleteNode
          { objects := [[("id", JVal.str "a")], [("id", JVal.str "a")]],
            tokens := [], isProcessingRemote := false, wsConn := some true }
          (JVal.str "a"))
        (JVal.str "a")
      ≠ deleteNode
          { objects := [[("id", JVal.str "a")], [("id", JVal.str "a")]],
            tokens := [], isProcessingRemote := false, wsConn := some true }
          (JVal.str "a") := by decide

/-- C9 (amended): deleting a non-existent id is a no-op on the relay mirror
and on the client; deleting twice equals deleting once on the relay mirror
for every state (the mirror deletes by `filter`, which is idempotent); on
the client, deleting twice equals deleting once provided at most one object
carries the id — with duplicate ids the client removes only the first
matching object per call. -/
theorem C9_idempotent_delete (rst rst2 : RelayState) (cst cst2 : ClientState)
    (idv : JVal)
    (habsR : hasLayerId rst.layers idv = false)
    (habsC : countLayersWithId cst.objects idv = 0)
    (hdup : countLayersWithId cst2.objects idv ≤ 1) :
    updateLocalState rst (mkDeleteMsg idv) = rst ∧
    updateLocalState (updateLocalState rst2 (mkDeleteMsg idv))
        (mkDeleteMsg idv)
      = updateLocalState rst2 (mkDeleteMsg idv) ∧
    deleteNode cst idv = cst ∧
    deleteNode (deleteNode cst2 idv) idv = deleteNode cst2 idv := by
  refine ⟨?_, ?_, ?_, ?_⟩
  · rw [updateLocalState_delete, filter_ne_eq_self rst.layers idv habsR]
  · rw [updateLocalState_delete rst2, updateLocalState_delete]
    dsimp only
    rw [filter_idem]
  · exact deleteNode_of_count_zero habsC
  · rcases Nat.le_one_iff_eq_zero_or_eq_one.mp hdup with h0 | h1
    · rw [deleteNode_of_count_zero h0, deleteNode_of_count_zero h0]
    · have hx : countLayersWithId (deleteNode cst2 idv).objects idv = 0 := by
        show countLayersWithId (deleteNodeObjects cst2.objects idv) idv = 0
        rw [countLayersWithId_deleteNodeObjects, h1]
      exact deleteNode_of_count_zero hx

/-- C9 witness: the amended idempotence at concrete states — a mirror and a
client document not containing the id a, and a client document holding the
id a exactly once. -/
theorem C9_idempotent_delete_witness :
    updateLocalState
        { layers := [[("id", JVal.str "b")]], background := JVal.undef,
          tokens := [], pending := [] } (mkDeleteMsg (JVal.str "a"))
      = { layers := [[("id", JVal.str "b")]], background := JVal.undef,
          tokens := [], pending := [] } ∧
    updateLocalState
        (updateLocalState
          { layers := [[("id", JVal.str "a")], [("id", JVal.str "b")]],
            background := JVal.undef, tokens := [], pending := [] }
          (mkDeleteMsg (JVal.str "a")))
        (mkDeleteMsg (JVal.str "a"))
      = updateLocalState
          { layers := [[("id", JVal.str "a")], [("id", JVal.str "b")]],
            background := JVal.undef, tokens := [], pending := [] }
          (mkDeleteMsg (JVal.str "a")) ∧
    deleteNode
        { objects := [[("id", JVal.str "b")]], tokens := [],
          isProcessingRemote := false, wsConn := some true } (JVal.str "a")
      = { objects := [[("id", JVal.str "b")]], tokens := [],
          isProcessingRemote := false, wsConn := some true } ∧
    deleteNode
        (deleteNode
          { objects := [[("id", JVal.str "a")]], tokens := [],
            isProcessingRemote := false, wsConn := some true }
          (JVal.str "a"))
        (JVal.str "a")
      = deleteNode
          { objects := [[("id", JVal.str "a")]], tokens := [],
            isProcessingRemote := false, wsConn := some true }
          (JVal.str "a") :=
  C9_idempotent_delete
    { layers := [[("id", JVal.str "b")]], background := JVal.undef,
      tokens := [], pending := [] }
    { layers := [[("id", JVal.str "a")], [("id", JVal.str "b")]],
      background := JVal.undef, tokens := [], pending := [] }
    { objects := [[("id", JVal.str "b")]], tokens := [],
      isProcessingRemote := false, wsConn := some true }
    { objects := [[("id", JVal.str "a")]], tokens := [],
      isProcessingRemote := false, wsConn := some true }
    (JVal.str "a") (by decide) (by decide) (by decide)

/-- C2 counterexample: the relay's `updateLocalState` applies a
`create_node` Mutation Event whose node id is the reserved `"workspace"` to
its mirror like any other event — the mirror afterwards holds a layer with
id `"workspace"`, refuting the claim's "never applied to the relay's mirror
state". -/
theorem C2_counterexample :
    hasLayerId
      (updateLocalState relayInit
        { emptyMsg with
          tool := some "create_node", argsType := some "rect",
          argsProps := [("id", JVal.str "workspace")],
          source := some "TEST" }).layers
      (JVal.str "workspace") = true := by decide

/-- C2 (amended): no Mutation Event carrying the reserved id `"workspace"`
is ever emitted by the client adapter's observers (`_reportManualChange`,
`reportAdded`, `reportRemoved`), for every adapter state and target object
(with the generated uuid never being the string `"workspace"`); the receive
side, however, applies `"workspace"`-id events without filtering (see the
counterexample). -/
theorem C2_no_workspace_emission (st : ClientState) (obj : Option Props)
    (freshId : String) (hfresh : freshId ≠ "workspace") :
    (reportManualChange st obj).map emittedEventId
        ≠ some (JVal.str "workspace") ∧
    (reportAdded st obj freshId).map emittedEventId
        ≠ some (JVal.str "workspace") ∧
    (reportRemoved st obj).map emittedEventId
        ≠ some (JVal.str "workspace") := by
  refine ⟨?_, ?_, ?_⟩
  · by_cases hrem : st.isProcessingRemote
    · simp [reportManualChange, hrem]
    · cases hws : st.wsConn with
      | none => simp [reportManualChange, hrem, hws]
      | some b =>
        cases b with
        | false => simp [reportManualChange, hrem, hws]
        | true =>
          cases obj with
          | none => simp [reportManualChange, hrem, hws]
          | some o =>
            by_cases hid : jsGet o "id" = JVal.str "workspace"
            · simp [reportManualChange, hrem, hws, hid]
            · simp [reportManualChange, hrem, hws, hid, emittedEventId]
  · by_cases hrem : st.isProcessingRemote
    · simp [reportAdded, hrem]
    · cases hws : st.wsConn with
      | none => simp [reportAdded, hrem, hws]
      | some b =>
        cases b with
        | false => simp [reportAdded, hrem, hws]
        | true =>
          cases obj with
          | none => simp [reportAdded, hrem, hws]
          | some o =>
            have hstep : reportAdded st (some o) freshId
                = (if jsGet o "id" = JVal.str "workspace" then none
                   else if truthy (jsGet o "_automation_ignore") = true then
                     none
                   else
                     let oo := if truthy (jsGet o "id") = true then o
                               else setProp o "id" (JVal.str freshId)
                     some
                       { emptyMsg with
                         tool := some "create_node",
                         argsType := asStrOpt (jsGet oo "type"),
                         argsProps := objAssign [("id", jsGet oo "id")]
                           (getObjectProps oo),
                         source := some "MANUAL_UI" }) := by
              unfold reportAdded
              rw [if_neg hrem, hws]
              rfl
            rw [hstep]
            by_cases hid : jsGet o "id" = JVal.str "workspace"
            · simp [hid]
            · by_cases hign : truthy (jsGet o "_automation_ignore") = true
              · simp [hid, hign]
              · rw [if_neg hid, if_neg hign]
                by_cases htr : truthy (jsGet o "id") = true
                · simp [htr, emittedEventId,
                    jsGet_objAssign_of_none _ _ (getProp_getObjectProps_id o),
                    jsGet_single_id, hid]
                · simp [htr, emittedEventId,
                    jsGet_objAssign_of_none _ _
                      (getProp_getObjectProps_id
                        (setProp o "id" (JVal.str freshId))),
                    jsGet_single_id, jsGet_setProp_self, hfresh]
  · by_cases hrem : st.isProcessingRemote
    · simp [reportRemoved, hrem]
    · cases hws : st.wsConn with
      | none => simp [reportRemoved, hrem, hws]
      | some b =>
        cases obj with
        | none => simp [reportRemoved, hrem, hws]
        | some o =>
          by_cases hc : (truthy (jsGet o "id")
              && !decide (jsGet o "id" = JVal.str "workspace")) = true
          · have hid : ¬jsGet o "id" = JVal.str "workspace" := by
              have h2 := hc
              rw [Bool.and_eq_true] at h2
              simpa using h2.2
            simp [reportRemoved, hrem, hws, hc, emittedEventId, hid]
          · simp [reportRemoved, hrem, hws, hc]

/-- C2 witness: at a concrete live adapter state and a concrete object with
id n1, none of the three observers emits a workspace-id event. -/
theorem C2_no_workspace_emission_witness :
    (reportManualChange
        { objects := [], tokens := [], isProcessingRemote := false,
          wsConn := some true }
        (some [("id", JVal.str "n1"), ("type", JVal.str "rect")])).map
        emittedEventId ≠ some (JVal.str "workspace") ∧
    (reportAdded
        { objects := [], tokens := [], isProcessingRemote := false,
          wsConn := some true }
        (some [("id", JVal.str "n1"), ("type", JVal.str "rect")])
        "u-1").map emittedEventId ≠ some (JVal.str "workspace") ∧
    (reportRemoved
        { objects := [], tokens := [], isProcessingRemote := false,
          wsConn := some true }
        (some [("id", JVal.str "n1"), ("type", JVal.str "rect")])).map
        emittedEventId ≠ some (JVal.str "workspace") :=
  C2_no_workspace_emission
    { objects := [], tokens := [], isProcessingRemote := false,
      wsConn := some true }
    (some [("id", JVal.str "n1"), ("type", JVal.str "rect")])
    "u-1" (by decide)

/-- C3 counterexample: applying `create_node` with an id already present in
the mirror's layer list does not overwrite — the mirror afterwards holds
two layers with the same id `a`, refuting last-write-wins overwrite and id
uniqueness. -/
theorem C3_counterexample :
    countLayersWithId
      (updateLocalState
        { layers := [[("id", JVal.str "a"), ("type", JVal.str "rect")]],
          background := JVal.undef, tokens := [], pending := [] }
        (mkCreateMsg (some "rect") [("id", JVal.str "a")])).layers
      (JVal.str "a") = 2 := by decide

/-- C3 (amended): `create_node` always appends the new node to the mirror's
layer list; in particular an id collision produces one more layer with that
id (two nodes with the same id) instead of silently overwriting the
existing node. -/
theorem C3_create_appends (st : RelayState) (ty : Option String)
    (props : Props) (hwf : wfProps props) :
    (updateLocalState st (mkCreateMsg ty props)).layers
      = st.layers ++ [createLayer ty props] ∧
    countLayersWithId (updateLocalState st (mkCreateMsg ty props)).layers
        (jsGet props "id")
      = countLayersWithId st.layers (jsGet props "id") + 1 := by
  rw [updateLocalState_create]
  refine ⟨rfl, ?_⟩
  dsimp only
  simp [countLayersWithId, List.filter_append,
    jsGet_createLayer_id ty props hwf]

/-- C3 witness: creating id a over a mirror already holding id a yields an
appended duplicate — the count of id-a layers goes from 1 to 2. -/
theorem C3_create_appends_witness :
    (updateLocalState
        { layers := [[("id", JVal.str "a")]], background := JVal.undef,
          tokens := [], pending := [] }
        (mkCreateMsg (some "rect")
          [("id", JVal.str "a"), ("left", JVal.num 1)])).layers
      = [[("id", JVal.str "a")]]
        ++ [createLayer (some "rect")
            [("id", JVal.str "a"), ("left", JVal.num 1)]] ∧
    countLayersWithId
        (updateLocalState
          { layers := [[("id", JVal.str "a")]], background := JVal.undef,
            tokens := [], pending := [] }
          (mkCreateMsg (some "rect")
            [("id", JVal.str "a"), ("left", JVal.num 1)])).layers
        (jsGet [("id", JVal.str "a"), ("left", JVal.num 1)] "id")
      = countLayersWithId [[("id", JVal.str "a")]]
          (jsGet [("id", JVal.str "a"), ("left", JVal.num 1)] "id") + 1 :=
  C3_create_appends
    { layers := [[("id", JVal.str "a")]], background := JVal.undef,
      tokens := [], pending := [] }
    (some "rect") [("id", JVal.str "a"), ("left", JVal.num 1)] (by decide)

/-- C5 counterexample: the client executes a remote `update_node` naming the
id n1 on an empty document and the document stays empty — the update is
dropped, no node is created, refuting the claimed client-side upsert. -/
theorem C5_counterexample :
    (handleRemoteCommand
      { objects := [], tokens := [], isProcessingRemote := false,
        wsConn := some true }
      "update_node"
      { ctype := none, cprops := [("left", JVal.num 10)],
        cid := JVal.str "n1", colors := [] }
      "fresh-1").objects = [] := by decide

/-- C5 (amended): when the client sync adapter executes a remote
`update_node` naming an id absent from its local document, the update is
dropped — `updateNodeProps` returns without touching the document (upsert
semantics exist only at the relay mirror). -/
theorem C5_update_absent_dropped (st : ClientState) (idv : JVal)
    (props : Props) (freshId : String)
    (habs : st.objects.find? (fun o => decide (jsGet o "id" = idv)) = none) :
    (handleRemoteCommand st "update_node"
        { ctype := none, cprops := props, cid := idv, colors := [] }
        freshId).objects
      = st.objects := by
  show (updateNodeProps (handleRemoteCommandEnter st) idv props).objects
      = st.objects
  show updateNodeObjects st.tokens st.objects idv props = st.objects
  simp [updateNodeObjects, habs]

/-- C5 witness: a remote `update_node` for the absent id n2 leaves a
document holding only n1 unchanged. -/
theorem C5_update_absent_dropped_witness :
    (handleRemoteCommand
        { objects := [[("id", JVal.str "n1")]], tokens := [],
          isProcessingRemote := false, wsConn := some true }
        "update_node"
        { ctype := none, cprops := [("left", JVal.num 3)],
          cid := JVal.str "n2", colors := [] }
        "f-1").objects
      = [[("id", JVal.str "n1")]] :=
  C5_update_absent_dropped
    { objects := [[("id", JVal.str "n1")]], tokens := [],
      isProcessingRemote := false, wsConn := some true }
    (JVal.str "n2") [("left", JVal.num 3)] "f-1" (by decide)

/-- C4 counterexample: interleaving `update_node(x, {left:1})` followed by
`create_node(x, {left:2})` on an empty mirror does not converge to the
merge in arrival order (which would be a single node x with left 2): the
late create appends a duplicate, the mirror ends with two layers of id x,
and the addressed (first) node x has left 1 — refuting "regardless of
whether create or an update arrived first". -/
theorem C4_counterexample :
    countLayersWithId
        (applyEvents relayInit
          [mkUpdateMsg (JVal.str "x") [("left", JVal.num 1)],
           mkCreateMsg (some "rect")
             [("id", JVal.str "x"), ("left", JVal.num 2)]]).layers
        (JVal.str "x") = 2 ∧
    (mirrorFind
        (applyEvents relayInit
          [mkUpdateMsg (JVal.str "x") [("left", JVal.num 1)],
           mkCreateMsg (some "rect")
             [("id", JVal.str "x"), ("left", JVal.num 2)]]).layers
        (JVal.str "x")).map (fun l => jsGet l "left")
      = some (JVal.num 1) := by decide

/-- C4 (amended): `update_node` on the mirror merges `args.props` into the
first existing node with that id, and with no node present it upserts
`{id: args.id, ...args.props}`; when the `create_node(X)` event arrives
before the `update_node(X)` events (property updates not themselves
rewriting the id key), the mirror converges: the addressed node X is unique
and its final properties equal the shallow merge of all property updates
applied in arrival order. A `create_node(X)` arriving after an
`update_node(X)` instead appends a duplicate (see the counterexample). -/
theorem C4_upsert_convergence (st : RelayState) (X : JVal)
    (ty : Option String) (p0 : Props) (us : List Props) (u : Props)
    (habs : hasLayerId st.layers X = false)
    (hid : jsGet p0 "id" = X) (hwf : wfProps p0)
    (hus : ∀ v ∈ us, getProp v "id" = none) :
    mirrorFind
        (applyEvents st
          (mkCreateMsg ty p0 :: us.map (mkUpdateMsg X))).layers X
      = some (us.foldl objAssign (createLayer ty p0)) ∧
    countLayersWithId
        (applyEvents st
          (mkCreateMsg ty p0 :: us.map (mkUpdateMsg X))).layers X = 1 ∧
    (updateLocalState st (mkUpdateMsg X u)).layers
      = st.layers ++ [objAssign [("id", X)] u] := by
  have hcl : jsGet (createLayer ty p0) "id" = X := by
    rw [jsGet_createLayer_id ty p0 hwf, hid]
  have hfold_id : jsGet (us.foldl objAssign (createLayer ty p0)) "id" = X := by
    rw [jsGet_foldl_objAssign_id us _ hus, hcl]
  have hlayers : (applyEvents st
      (mkCreateMsg ty p0 :: us.map (mkUpdateMsg X))).layers
      = st.layers ++ [us.foldl objAssign (createLayer ty p0)] := by
    show (applyEvents (updateLocalState st (mkCreateMsg ty p0))
        (us.map (mkUpdateMsg X))).layers = _
    rw [updateLocalState_create, applyEvents_updates]
    exact mirrorUpdate_fold X us hus st.layers (createLayer ty p0) [] habs hcl
  refine ⟨?_, ?_, ?_⟩
  · rw [hlayers, mirrorFind_append _ _ _ habs]
    unfold mirrorFind
    rw [List.find?_cons_of_pos _ (by simp [hfold_id])]
  · rw [hlayers]
    rw [show countLayersWithId
          (st.layers ++ [us.foldl objAssign (createLayer ty p0)]) X
        = countLayersWithId st.layers X
          + countLayersWithId [us.foldl objAssign (createLayer ty p0)] X from
      by simp [countLayersWithId, List.filter_append]]
    rw [countLayersWithId_eq_zero_of_not_has habs]
    simp [countLayersWithId, List.filter, hfold_id]
  · rw [updateLocalState_update]
    dsimp only
    unfold mirrorUpdateNode
    rw [habs]
    simp

/-- C4 witness: from an empty mirror, `create_node(n, {id:n, fill:red})`
followed by `update_node(n, {left:5})` leaves a unique node n whose
properties are the merge of the create props and the update, and an
`update_node(n, {top:7})` on the empty mirror upserts. -/
theorem C4_upsert_convergence_witness :
    mirrorFind
        (applyEvents relayInit
          (mkCreateMsg (some "rect")
              [("id", JVal.str "n"), ("fill", JVal.str "red")]
            :: [[("left", JVal.num 5)]].map
                (mkUpdateMsg (JVal.str "n")))).layers (JVal.str "n")
      = some ([[("left", JVal.num 5)]].foldl objAssign
          (createLayer (some "rect")
            [("id", JVal.str "n"), ("fill", JVal.str "red")])) ∧
    countLayersWithId
        (applyEvents relayInit
          (mkCreateMsg (some "rect")
              [("id", JVal.str "n"), ("fill", JVal.str "red")]
            :: [[("left", JVal.num 5)]].map
                (mkUpdateMsg (JVal.str "n")))).layers (JVal.str "n") = 1 ∧
    (updateLocalState relayInit
        (mkUpdateMsg (JVal.str "n") [("top", JVal.num 7)])).layers
      = relayInit.layers
        ++ [objAssign [("id", JVal.str "n")] [("top", JVal.num 7)]] :=
  C4_upsert_convergence relayInit (JVal.str "n") (some "rect")
    [("id", JVal.str "n"), ("fill", JVal.str "red")]
    [[("left", JVal.num 5)]] [("top", JVal.num 7)]
    (by decide) (by decide) (by decide) (by decide)

end FE
